import Mathlib

/-!
Shallow embedding of the kath editor front end (the caller layer of the
backend data engine): the `EditorView` handlers (save, aggregation, sort,
filter, pagination confirmation), the merge toolbar presets, the automated
Perform All pipeline, and the pagination bar.

Modelling conventions:
* JavaScript object maps (`{ [column]: value }`) are association lists with
  unique keys.
* An axios request is a value of the inductive `Req`; a handler is embedded
  as a function from its inputs (component state plus an environment holding
  the outcome of each external call) to the trace of events it produces
  and/or the updated state.  A rejected `await` inside a `try` block ends the
  trace at that point (control jumps to the `catch`, which only logs).
* Asynchronous React effects are modelled as running to completion: a state
  update that changes the fetch parameters carries the response of the
  refetch that the `useEffect` hook issues for it.
* `findUniqueFileName`/`generateTimestamp` results are opaque strings
  supplied by the environment, since the claims do not depend on the naming
  scheme.
-/

namespace Kath

/-- Sort directions of the column menu (`SortEnum`): ascending, descending,
or the unsort action. -/
inductive SortEnum where
  | asc
  | desc
  | none
deriving DecidableEq, Repr

/-- Filter operators (`FilterEnum`). -/
inductive FilterEnum where
  | contains
  | equals
  | greaterThan
  | lessThan
deriving DecidableEq, Repr

/-- A filter entry: `{ operator, value }`. -/
structure FilterVal where
  op : FilterEnum
  value : String
deriving DecidableEq, Repr

/-- Source `fileContent.sorts`: mapping column name → sort direction. -/
abbrev SortSpec := List (String × SortEnum)

/-- Source `fileContent.filters`: mapping column name → (operator, value). -/
abbrev FilterSpec := List (String × FilterVal)

/-- Aggregation actions (`FileContentAggregationActions`). -/
inductive AggAction where
  | sum
  | avg
  | min
  | max
  | cnt
  | none
deriving DecidableEq, Repr

/-- One aggregation entry stored client side: `{ action, value }`. -/
structure AggEntry where
  action : AggAction
  value : String
deriving DecidableEq, Repr

/-- Source `fileContent.aggregations`: mapping column name → aggregation entry. -/
abbrev AggregationSpec := List (String × AggEntry)

/-- The backend requests the embedded handlers issue. -/
inductive Req where
  | putSave (fileId : String) (page rowsPerPage : Nat) (header : List String)
      (rows : List (List String)) (sorts : SortSpec) (filters : FilterSpec)
  | getFile (fileId : String) (page rowsPerPage : Nat) (sorts : SortSpec)
      (filters : FilterSpec)
  | aggSingle (fileId : String) (field : String) (action : AggAction)
  | aggAll (fileId : String) (columnsAggregation : AggregationSpec)
  | download (source : String) (savePath : String) (gene : String)
  | mergeAll (savePath : String) (lovdFile clinvarFile gnomadFile customFile : String)
  | mergePair (preset : String) (savePath : String) (fileA fileB : String)
  | applyTool (tool : String) (savePath : String) (applyTo : String)
deriving DecidableEq, Repr

/-- Observable events of a handler run: a backend request, a fixed sleep
(`setTimeout`), or a user-visible error-state update. -/
inductive Ev where
  | request (r : Req)
  | sleep (ms : Nat)
  | errorMsg (msg : String)
deriving DecidableEq, Repr

/-- The requests contained in a trace, in order. -/
def requestsOf (t : List Ev) : List Req :=
  t.filterMap fun ev =>
    match ev with
    | .request r => some r
    | _ => Option.none

/-- Modelled from the spec: the `getFileExtension` utility
(`@/features/editor/utils`) is not among the provided sources; per the
PathNamer contract it validates required extensions, taken here as the
suffix after the final dot (the whole name when there is no dot; `46` is
the code point of the dot). -/
def getFileExtension (p : String) : String :=
  String.mk (p.toList.foldl (fun cur c => if c = Char.ofNat 46 then [] else cur ++ [c]) [])

/- ### editorPaginationBar.tsx -/

/-- Source `disabled={page === 0}` on the first-page button. -/
def firstDisabled (page : Nat) : Bool :=
  page == 0

/-- Source `disabled={page === 0}` on the previous-page button. -/
def prevDisabled (page : Nat) : Bool :=
  page == 0

/-- Source `Math.ceil(count / rowsPerPage)` over the integers (the bar is rendered
with a positive `rowsPerPage`). -/
def ceilPages (count rowsPerPage : Int) : Int :=
  -((-count).ediv rowsPerPage)

/-- Source `disabled={page >= Math.ceil(count / rowsPerPage) - 1}` on the
next-page button. -/
def nextDisabled (count page rowsPerPage : Nat) : Bool :=
  (page : Int) ≥ ceilPages (count : Int) (rowsPerPage : Int) - 1

/-- Page requested by the first-page button: `onPageChange(event, 0)`. -/
def firstPageRequest : Int := 0

/-- Page requested by the previous-page button:
`onPageChange(event, page - 1)`. -/
def prevPageRequest (page : Nat) : Int := (page : Int) - 1

/-- Page requested by the next-page button:
`onPageChange(event, page + 1)`. -/
def nextPageRequest (page : Nat) : Int := (page : Int) + 1

/- ### EditorView handlers: sort / filter / aggregation -/

/-- Handler `handleSort`: unsort resets `sorts` to `{}`; otherwise the whole map is
replaced by the single entry `{ [column]: sort }`. -/
def handleSort (_sorts : SortSpec) (column : String) (sort : SortEnum) : SortSpec :=
  if sort = SortEnum.none then [] else [(column, sort)]

/-- Handler `handleFilter`: the whole `filters` map is replaced by the single entry
`{ [column]: { operator, value } }`. -/
def handleFilter (_filters : FilterSpec) (column : String) (op : FilterEnum)
    (value : String) : FilterSpec :=
  [(column, ⟨op, value⟩)]

/-- Handler `handleFilterClear`: `filters` is reset to `{}`. -/
def handleFilterClear (_filters : FilterSpec) : FilterSpec :=
  []

/-- Removal of one key from an object map
(`const { [column]: _, ...rest } = aggregations`). -/
def eraseKey (m : AggregationSpec) (column : String) : AggregationSpec :=
  m.filter fun kv => kv.1 != column

/-- Replace-or-append of one key in an object map
(`{ ...aggregations, [field]: entry }`). -/
def setKey (m : AggregationSpec) (column : String) (e : AggEntry) : AggregationSpec :=
  match m with
  | [] => [(column, e)]
  | (k, old) :: rest =>
      if k == column then (column, e) :: rest else (k, old) :: setKey rest column e

/-- Handler `handleAggregation`: for `NONE` the entry is dropped client side and no
request is issued; for every other action one GET
`/workspace/aggregate/{fileId}?field=column&action=action` is issued and, on
success, the returned value is stored under the returned field (the backend
echoes the requested field and action; `respValue` is the value it returns,
`respOk` whether the request succeeded).  Result: (requests issued, new
aggregations map). -/
def handleAggregation (aggs : AggregationSpec) (fileId column : String)
    (action : AggAction) (respValue : String) (respOk : Bool) :
    List Req × AggregationSpec :=
  match action with
  | AggAction.none => ([], eraseKey aggs column)
  | a =>
      ([Req.aggSingle fileId column a],
       if respOk then setKey aggs column ⟨a, respValue⟩ else aggs)

/- ### MergeGroupButtons -/

/-- Inputs of the merge click handlers: the files selected in the toolbar
context, the save-to target, and the `findUniqueFileName` results for each
default name pattern (opaque, see the module comment). -/
structure MergeEnv where
  lovdFile : Option String
  clinvarFile : Option String
  gnomadFile : Option String
  customFile : Option String
  saveToId : String
  defaultSaveToId : String
  freshAll : String
  freshLovdGnomad : String
  freshLovdClinvar : String
  override : Bool
deriving DecidableEq, Repr

/-- The `savePath` chosen by `mergeAllClick`:
`saveTo !== defaultSaveTo ? saveTo.id : findUniqueFileName(fileTree, all_merged_T.csv)`. -/
def mergeAllSavePath (e : MergeEnv) : String :=
  if e.saveToId ≠ e.defaultSaveToId then e.saveToId else e.freshAll

/-- The `savePath` chosen by `mergeLovdAndGnomadClick`. -/
def mergeLovdGnomadSavePath (e : MergeEnv) : String :=
  if e.saveToId ≠ e.defaultSaveToId then e.saveToId else e.freshLovdGnomad

/-- The `savePath` chosen by `mergeLovdAndClinvarClick`. -/
def mergeLovdClinvarSavePath (e : MergeEnv) : String :=
  if e.saveToId ≠ e.defaultSaveToId then e.saveToId else e.freshLovdClinvar

/-- Handler `mergeAllClick`: clears the three error states, reports a missing-file
error for each unselected source and returns if any is missing; otherwise
checks the target extension (reporting `Select .csv` and returning on
mismatch) and issues the single GET `/workspace/merge/all/{savePath}`
request with all four file parameters (customFile id when present, else an empty string). -/
def mergeAllClick (e : MergeEnv) : List Ev :=
  (if e.lovdFile.isNone then [Ev.errorMsg "Please select a LOVD file"] else []) ++
  (if e.clinvarFile.isNone then [Ev.errorMsg "Please select a ClinVar file"] else []) ++
  (if e.gnomadFile.isNone then [Ev.errorMsg "Please select a gnomAD file"] else []) ++
  if e.lovdFile.isNone || e.clinvarFile.isNone || e.gnomadFile.isNone then []
  else
    let savePath := mergeAllSavePath e
    if getFileExtension savePath ≠ "csv" then [Ev.errorMsg "Select .csv"]
    else
      [Ev.request (Req.mergeAll savePath (e.lovdFile.getD "") (e.clinvarFile.getD "")
        (e.gnomadFile.getD "") (e.customFile.getD ""))]

/-- Handler `mergeLovdAndGnomadClick`: like `mergeAllClick` but requiring only the
LOVD and gnomAD files and issuing GET `/workspace/merge/lovd_gnomad/...`. -/
def mergeLovdAndGnomadClick (e : MergeEnv) : List Ev :=
  (if e.lovdFile.isNone then [Ev.errorMsg "Please select a LOVD file"] else []) ++
  (if e.gnomadFile.isNone then [Ev.errorMsg "Please select a gnomAD file"] else []) ++
  if e.lovdFile.isNone || e.gnomadFile.isNone then []
  else
    let savePath := mergeLovdGnomadSavePath e
    if getFileExtension savePath ≠ "csv" then [Ev.errorMsg "Select .csv"]
    else
      [Ev.request (Req.mergePair "lovd_gnomad" savePath (e.lovdFile.getD "")
        (e.gnomadFile.getD ""))]

/-- Handler `mergeLovdAndClinvarClick`: like `mergeAllClick` but requiring only the
LOVD and ClinVar files and issuing GET `/workspace/merge/lovd_clinvar/...`. -/
def mergeLovdAndClinvarClick (e : MergeEnv) : List Ev :=
  (if e.lovdFile.isNone then [Ev.errorMsg "Please select a LOVD file"] else []) ++
  (if e.clinvarFile.isNone then [Ev.errorMsg "Please select a ClinVar file"] else []) ++
  if e.lovdFile.isNone || e.clinvarFile.isNone then []
  else
    let savePath := mergeLovdClinvarSavePath e
    if getFileExtension savePath ≠ "csv" then [Ev.errorMsg "Select .csv"]
    else
      [Ev.request (Req.mergePair "lovd_clinvar" savePath (e.lovdFile.getD "")
        (e.clinvarFile.getD ""))]

/-- Which merge-engine endpoint a merge toolbar button drives. -/
inductive MergePreset where
  | all
  | lovdGnomad
  | lovdClinvar
deriving DecidableEq, Repr

/-- A toolbar button entry (`ToolbarGroupItemProps`) with the preset its
`onClick` handler targets. -/
structure MergeButton where
  group : String
  label : String
  preset : MergePreset
deriving DecidableEq, Repr

/-- The `buttons` list of `MergeGroupButtons`. -/
def mergeButtons : List MergeButton :=
  [⟨"merge", "Merge All", MergePreset.all⟩,
   ⟨"merge", "Merge LOVD & gnomAD", MergePreset.lovdGnomad⟩,
   ⟨"merge", "Merge LOVD & ClinVar", MergePreset.lovdClinvar⟩]

/-- A preset is a pair-join when it merges exactly two sources. -/
def isPairJoin : MergePreset → Bool
  | MergePreset.all => false
  | MergePreset.lovdGnomad => true
  | MergePreset.lovdClinvar => true

/-- A preset is the full four-way join when it merges all configured
sources (LOVD, ClinVar, gnomAD, custom). -/
def isFullJoin : MergePreset → Bool
  | MergePreset.all => true
  | MergePreset.lovdGnomad => false
  | MergePreset.lovdClinvar => false

/- ### AutomaticGroupButtons: handlePerformAllClick -/

/-- Inputs of the Perform All pipeline: the save-to target, gene, override
flag, the `findUniqueFileName` result for the default name pattern of each stage,
and which requests the backend answers successfully. -/
structure AutoEnv where
  saveToId : String
  defaultSaveToId : String
  override : Bool
  gene : String
  freshRevel : String
  freshLovd : String
  freshClinvar : String
  freshGnomad : String
  freshMerge : String
  freshSpliceai : String
  freshCadd : String
  ok : Req → Bool

/-- The `revelSavePath` target:
`saveTo.id !== defaultSaveTo.id ? saveTo.id : findUniqueFileName(fileTree, auto_revel_T.csv)`. -/
def revelSavePath (e : AutoEnv) : String :=
  if e.saveToId ≠ e.defaultSaveToId then e.saveToId else e.freshRevel

/-- Stage 1 request: download LOVD. -/
def lovdReq (e : AutoEnv) : Req :=
  Req.download "lovd" e.freshLovd e.gene

/-- Stage 2 request: download ClinVar. -/
def clinvarReq (e : AutoEnv) : Req :=
  Req.download "clinvar" e.freshClinvar e.gene

/-- Stage 3 request: download gnomAD. -/
def gnomadReq (e : AutoEnv) : Req :=
  Req.download "gnomad" e.freshGnomad e.gene

/-- Stage 4 request: merge all three downloads (no custom file). -/
def mergeReq (e : AutoEnv) : Req :=
  Req.mergeAll e.freshMerge e.freshLovd e.freshClinvar e.freshGnomad ""

/-- Stage 5 request: apply SpliceAI to the merged file. -/
def spliceaiReq (e : AutoEnv) : Req :=
  Req.applyTool "spliceai" e.freshSpliceai e.freshMerge

/-- Stage 6 request: apply CADD to the SpliceAI output. -/
def caddReq (e : AutoEnv) : Req :=
  Req.applyTool "cadd" e.freshCadd e.freshSpliceai

/-- Stage 7 request: apply REVEL to the CADD output, writing the final
target. -/
def revelReq (e : AutoEnv) : Req :=
  Req.applyTool "revel" (revelSavePath e) e.freshCadd

/-- The seven pipeline stage requests in source order. -/
def autoChain (e : AutoEnv) : List Req :=
  [lovdReq e, clinvarReq e, gnomadReq e, mergeReq e, spliceaiReq e, caddReq e, revelReq e]

/-- Handler `handlePerformAllClick` (automaticGroupButtons.tsx): validates the final
REVEL target extension up front (reporting `Select .csv` and returning
before anything runs on mismatch), then runs the seven stages strictly in
sequence inside one `try` block, with a 500 ms `setTimeout` sleep between
consecutive stages; a rejected `await` jumps to the single `catch`, ending
the run. -/
def handlePerformAllClick (e : AutoEnv) : List Ev :=
  if getFileExtension (revelSavePath e) ≠ "csv" then [Ev.errorMsg "Select .csv"]
  else
    Ev.request (lovdReq e) ::
    (if e.ok (lovdReq e) then
      Ev.sleep 500 :: Ev.request (clinvarReq e) ::
      (if e.ok (clinvarReq e) then
        Ev.sleep 500 :: Ev.request (gnomadReq e) ::
        (if e.ok (gnomadReq e) then
          Ev.sleep 500 :: Ev.request (mergeReq e) ::
          (if e.ok (mergeReq e) then
            Ev.sleep 500 :: Ev.request (spliceaiReq e) ::
            (if e.ok (spliceaiReq e) then
              Ev.sleep 500 :: Ev.request (caddReq e) ::
              (if e.ok (caddReq e) then
                Ev.sleep 500 :: Ev.request (revelReq e) :: []
              else [])
            else [])
          else [])
        else [])
      else [])
    else [])

/-- The file a request writes (its save path). -/
def outputOf : Req → String
  | Req.putSave fileId _ _ _ _ _ _ => fileId
  | Req.getFile fileId _ _ _ _ => fileId
  | Req.aggSingle fileId _ _ => fileId
  | Req.aggAll fileId _ => fileId
  | Req.download _ savePath _ => savePath
  | Req.mergeAll savePath _ _ _ _ => savePath
  | Req.mergePair _ savePath _ _ => savePath
  | Req.applyTool _ savePath _ => savePath

/-- The files a request reads as inputs. -/
def fileInputsOf : Req → List String
  | Req.putSave fileId _ _ _ _ _ _ => [fileId]
  | Req.getFile fileId _ _ _ _ => [fileId]
  | Req.aggSingle fileId _ _ => [fileId]
  | Req.aggAll fileId _ => [fileId]
  | Req.download _ _ _ => []
  | Req.mergeAll _ lovdFile clinvarFile gnomadFile _ => [lovdFile, clinvarFile, gnomadFile]
  | Req.mergePair _ _ fileA fileB => [fileA, fileB]
  | Req.applyTool _ _ applyTo => [applyTo]

/- ### Generic sequential-chain runner (for reasoning about the pipeline) -/

/-- Reference runner: issue the requests of a chain in order, a 500 ms sleep
before each later stage, stopping right after the first failed request. -/
def runChain (ok : Req → Bool) : List Req → List Ev
  | [] => []
  | r :: rs =>
      Ev.request r ::
      if ok r then
        match rs with
        | [] => []
        | r2 :: rs2 => Ev.sleep 500 :: runChain ok (r2 :: rs2)
      else []

/-- The requests a chain run issues: every request up to and including the
first failing one. -/
def issued (ok : Req → Bool) : List Req → List Req
  | [] => []
  | r :: rs => r :: if ok r then issued ok rs else []

/- ### EditorView component state machine -/

/-- The query parameters of a fetch: `page`, `rowsPerPage`, `sorts`,
`filters`. -/
structure QueryParams where
  page : Nat
  rowsPerPage : Nat
  sorts : SortSpec
  filters : FilterSpec
deriving DecidableEq, Repr

/-- Source `filePagination` of the workspace context. -/
structure FilePagination where
  page : Nat
  rowsPerPage : Nat
  totalRows : Nat
deriving DecidableEq, Repr

/-- A pagination model coming from the grid
(`onPaginationModelChange`). -/
structure PaginationModel where
  page : Nat
  pageSize : Nat
deriving DecidableEq, Repr

/-- The window the grid currently displays: header and rows as shown
(rows reflect cell edits), plus the query parameters under which the window
was fetched from the backend. -/
structure GridWindow where
  header : List String
  rows : List (List String)
  fetchedWith : QueryParams
deriving DecidableEq, Repr

/-- A `FileDataResponseDTO` returned by GET `/workspace/file/{id}`. -/
structure FetchResponse where
  totalRows : Nat
  header : List String
  rows : List (List String)
deriving DecidableEq, Repr

/-- The `EditorView` state relevant to the claims: pagination, the
`fileContent` maps, the displayed grid window, the unsaved flag and the
pending-pagination confirmation dialog. -/
structure EditorState where
  pagination : FilePagination
  sorts : SortSpec
  filters : FilterSpec
  aggregations : AggregationSpec
  grid : GridWindow
  unsaved : Bool
  pendingModel : Option PaginationModel
  dialogOpen : Bool
deriving DecidableEq, Repr

/-- The query parameters a fetch issued from state `s` uses
(`getWorkspaceFile`: `filePagination.page`, `filePagination.rowsPerPage`,
`fileContent.sorts`, `fileContent.filters`). -/
def currentParams (s : EditorState) : QueryParams :=
  ⟨s.pagination.page, s.pagination.rowsPerPage, s.sorts, s.filters⟩

/-- Function `getWorkspaceFile` followed by the parse-response effect: the grid is
replaced by the response window (recording the parameters it was fetched
under) and `filePagination.totalRows` is set from the response. -/
def applyFetch (s : EditorState) (resp : FetchResponse) : EditorState :=
  { s with
    grid := ⟨resp.header, resp.rows, currentParams s⟩,
    pagination := ⟨s.pagination.page, s.pagination.rowsPerPage, resp.totalRows⟩ }

/-- Write value `v` into cell `(i, j)` of the displayed rows. -/
def updateCell (rows : List (List String)) (i j : Nat) (v : String) :
    List (List String) :=
  rows.set i ((rows.getD i []).set j v)

/-- User/system events of the editor.  Events that change the fetch
parameters carry the response of the refetch the `useEffect` hook issues for
them (see the module comment); `saveClick` carries whether the PUT
succeeded, the refetch response and the recomputed aggregations the
`/aggregate/all` call returns. -/
inductive EditorEvent where
  | sortColumn (column : String) (dir : SortEnum) (resp : FetchResponse)
  | filterColumn (column : String) (op : FilterEnum) (value : String) (resp : FetchResponse)
  | filterClear (resp : FetchResponse)
  | paginationChange (m : PaginationModel) (resp : FetchResponse)
  | confirmLeave (resp : FetchResponse)
  | cancelLeave
  | editCell (i j : Nat) (v : String)
  | saveClick (putOk : Bool) (resp : FetchResponse) (respAggs : AggregationSpec)
  | aggregate (column : String) (action : AggAction) (respValue : String) (respOk : Bool)
deriving Repr

/-- One step of the editor: the handlers of EditorView.
* `sortColumn`/`filterColumn`/`filterClear` rewrite the `fileContent` maps
  (`handleSort`/`handleFilter`/`handleFilterClear`) and refetch.
* `paginationChange` with unsaved edits only parks the model behind the
  confirmation dialog; otherwise it is applied (keeping `totalRows`) and the
  view refetches.
* `confirmLeave` applies the pending model, `cancelLeave` discards it.
* `editCell` edits the displayed cell and marks the state unsaved.
* `saveClick` (`handleSave`): on PUT success refetches and stores the
  recomputed aggregations; on failure the `catch` only logs.
* `aggregate` (`handleAggregation`) updates the aggregations map. -/
def step (s : EditorState) : EditorEvent → EditorState
  | EditorEvent.sortColumn c d resp =>
      applyFetch { s with sorts := handleSort s.sorts c d } resp
  | EditorEvent.filterColumn c op v resp =>
      applyFetch { s with filters := handleFilter s.filters c op v } resp
  | EditorEvent.filterClear resp =>
      applyFetch { s with filters := handleFilterClear s.filters } resp
  | EditorEvent.paginationChange m resp =>
      if s.unsaved then { s with pendingModel := some m, dialogOpen := true }
      else
        applyFetch
          { s with pagination := ⟨m.page, m.pageSize, s.pagination.totalRows⟩ } resp
  | EditorEvent.confirmLeave resp =>
      (match s.pendingModel with
       | some m =>
           applyFetch
             { s with
               pagination := ⟨m.page, m.pageSize, s.pagination.totalRows⟩,
               pendingModel := Option.none,
               dialogOpen := false } resp
       | Option.none => { s with dialogOpen := false })
  | EditorEvent.cancelLeave =>
      { s with pendingModel := Option.none, dialogOpen := false }
  | EditorEvent.editCell i j v =>
      { s with
        grid := ⟨s.grid.header, updateCell s.grid.rows i j v, s.grid.fetchedWith⟩,
        unsaved := true }
  | EditorEvent.saveClick putOk resp respAggs =>
      if putOk then { applyFetch s resp with aggregations := respAggs } else s
  | EditorEvent.aggregate c a v respOk =>
      { s with aggregations := (handleAggregation s.aggregations "" c a v respOk).2 }

/-- The state right after mount: the aggregation-reset effect clears the
`fileContent` maps, no unsaved edits, no pending dialog; the mount fetch
then fills the grid. -/
def initialState (p : FilePagination) (resp : FetchResponse) : EditorState :=
  applyFetch
    { pagination := p,
      sorts := [],
      filters := [],
      aggregations := [],
      grid := ⟨[], [], ⟨p.page, p.rowsPerPage, [], []⟩⟩,
      unsaved := false,
      pendingModel := Option.none,
      dialogOpen := false } resp

/-- States the editor can reach from mount. -/
inductive Reachable : EditorState → Prop where
  | init (p : FilePagination) (resp : FetchResponse) : Reachable (initialState p resp)
  | next (s : EditorState) (ev : EditorEvent) : Reachable s → Reachable (step s ev)

/-- The PUT request `handleSave` builds: current `filePagination.page` and
`rowsPerPage`, the displayed header (`getAllColumns().map(field)`) and rows
(`getCellValue` over all row ids), with `fileContent.sorts` and `filters` as
query parameters. -/
def saveRequestOf (s : EditorState) (fileId : String) : Req :=
  Req.putSave fileId s.pagination.page s.pagination.rowsPerPage
    s.grid.header s.grid.rows s.sorts s.filters

/-- The full request trace of `handleSave`: the PUT; then, when it
succeeded, the `getWorkspaceFile` refetch (whose own errors are caught
internally) and the single GET `/workspace/aggregate/all/{fileId}` carrying
the whole current aggregations map. -/
def handleSaveReqs (s : EditorState) (fileId : String) (putOk : Bool) : List Req :=
  saveRequestOf s fileId ::
  if putOk then
    [Req.getFile fileId s.pagination.page s.pagination.rowsPerPage s.sorts s.filters,
     Req.aggAll fileId s.aggregations]
  else []

/-- Recognizer for single-column aggregation requests. -/
def isAggSingle : Req → Bool
  | Req.aggSingle _ _ _ => true
  | _ => false

/-- Recognizer for whole-spec `computeAll` aggregation requests. -/
def isAggAll : Req → Bool
  | Req.aggAll _ _ => true
  | _ => false

/- ### Trace-shape helpers -/

/-- A trace alternates requests and 500 ms sleeps: every event following a
request is a 500 ms sleep, and every sleep is followed by the rest of such a
trace. -/
def altSpaced : List Ev → Bool
  | [] => true
  | [Ev.request _] => true
  | Ev.request _ :: Ev.sleep n :: rest => n == 500 && altSpaced rest
  | _ => false

/-- Number of request events in a trace. -/
def countReqs (t : List Ev) : Nat :=
  t.countP fun ev =>
    match ev with
    | Ev.request _ => true
    | _ => false

/-- Number of sleep events in a trace. -/
def countSleeps (t : List Ev) : Nat :=
  t.countP fun ev =>
    match ev with
    | Ev.sleep _ => true
    | _ => false

/-- Every sleep event in a trace waits exactly 500 ms. -/
def allSleeps500 (t : List Ev) : Bool :=
  t.all fun ev =>
    match ev with
    | Ev.sleep n => n == 500
    | _ => true

/- ### Concrete inputs used by the witnesses -/

/-- A pipeline environment whose final target has the csv extension and
whose requests all succeed. -/
def autoEnvOk : AutoEnv :=
  ⟨"out.csv", "default", false, "eys", "r.csv", "l.txt", "c.csv", "g.csv",
   "m.csv", "s.csv", "k.csv", fun _ => true⟩

/-- A pipeline environment whose final target has a txt extension. -/
def autoEnvTxt : AutoEnv :=
  ⟨"out.txt", "default", false, "eys", "r.csv", "l.txt", "c.csv", "g.csv",
   "m.csv", "s.csv", "k.csv", fun _ => true⟩

/-- A merge environment with all sources selected and a txt save target. -/
def mergeEnvTxt : MergeEnv :=
  ⟨some "lovd.txt", some "clinvar.csv", some "gnomad.csv", Option.none,
   "target.txt", "default", "a.csv", "lg.csv", "lc.csv", false⟩

/-- A reachable editor state: mount at page 0 with 25 rows per page, then
sort the pos column ascending. -/
def c1State : EditorState :=
  step (initialState ⟨0, 25, 0⟩ ⟨3, ["pos"], [["10"], ["30"], ["20"]]⟩)
    (EditorEvent.sortColumn "pos" SortEnum.asc ⟨3, ["pos"], [["10"], ["20"], ["30"]]⟩)

/-- An editor state with unsaved edits awaiting a pagination decision. -/
def c9State : EditorState :=
  ⟨⟨1, 25, 100⟩, [], [], [], ⟨["a"], [["x"]], ⟨1, 25, [], []⟩⟩, true,
   Option.none, false⟩

/- ## Theorems -/

/-- C10: for every count, page and positive rowsPerPage, the pagination bar
only requests in-range pages: first/previous are disabled exactly when
`page = 0` (so an enabled previous click requests a page that is not
negative, and first always requests page 0), and next is disabled exactly
when `page ≥ ceil(count / rowsPerPage) - 1` (so an enabled next click never
requests past the last page index). -/
theorem paginationBar_requests_in_range (count page rowsPerPage : Nat)
    (h : 0 < rowsPerPage) :
    (prevDisabled page = false → 0 ≤ prevPageRequest page)
    ∧ (prevDisabled page = true ↔ page = 0)
    ∧ firstDisabled page = prevDisabled page
    ∧ firstPageRequest = 0
    ∧ (nextDisabled count page rowsPerPage = false →
        nextPageRequest page ≤ ceilPages (count : Int) (rowsPerPage : Int) - 1)
    ∧ (nextDisabled count page rowsPerPage = true ↔
        (page : Int) ≥ ceilPages (count : Int) (rowsPerPage : Int) - 1) := by
  refine ⟨?_, ?_, rfl, rfl, ?_, ?_⟩
  · intro hp
    simp only [prevDisabled, beq_eq_false_iff_ne, ne_eq] at hp
    simp only [prevPageRequest]
    omega
  · simp [prevDisabled]
  · intro hn
    simp only [nextDisabled, ge_iff_le, decide_eq_false_iff_not, not_le] at hn
    simp only [nextPageRequest]
    omega
  · simp [nextDisabled]

/-- Witness for C10 at count 51, page 1, 25 rows per page. -/
theorem paginationBar_requests_in_range_witness :
    0 < 25
    ∧ (nextDisabled 51 1 25 = false →
        nextPageRequest 1 ≤ ceilPages (51 : Int) (25 : Int) - 1) :=
  ⟨by decide, (paginationBar_requests_in_range 51 1 25 (by decide)).2.2.2.2.1⟩

/-- C4 counterexample: the merge toolbar exposes three named join presets,
not two. -/
theorem mergeButtons_not_two_presets :
    mergeButtons.length = 3 ∧ ¬ mergeButtons.length = 2 := by
  constructor
  · rfl
  · decide

/-- C4 (amended): exactly three named join presets are exposed to the
caller for merging: two pair-joins (LOVD with gnomAD, LOVD with ClinVar)
and one full four-way join over the configured sources. -/
theorem mergeButtons_three_presets :
    mergeButtons.length = 3
    ∧ (mergeButtons.filter fun b => isPairJoin b.preset).length = 2
    ∧ (mergeButtons.filter fun b => isFullJoin b.preset).length = 1
    ∧ mergeButtons.map (fun b => b.preset)
        = [MergePreset.all, MergePreset.lovdGnomad, MergePreset.lovdClinvar]
    ∧ (∀ b ∈ mergeButtons, isPairJoin b.preset = true ∨ isFullJoin b.preset = true) := by
  refine ⟨rfl, rfl, rfl, rfl, ?_⟩
  decide

/-- C5: every user sort or filter action leaves at most one active entry:
selecting a sort or filter replaces the whole map by a single-entry map for
that column, unsorting or clearing yields the empty map, while the
mapping-valued SortSpec/FilterSpec types stay general (they admit
multi-entry values). -/
theorem ui_single_active_sort_filter (sorts : SortSpec) (filters : FilterSpec)
    (c c2 : String) (d : SortEnum) (op : FilterEnum) (v : String) :
    (handleSort sorts c d).length ≤ 1
    ∧ handleSort sorts c SortEnum.none = []
    ∧ (d ≠ SortEnum.none → handleSort sorts c d = [(c, d)])
    ∧ (handleFilter filters c2 op v).length = 1
    ∧ handleFilter filters c2 op v = [(c2, ⟨op, v⟩)]
    ∧ handleFilterClear filters = []
    ∧ (∃ engineSort : SortSpec, 2 ≤ engineSort.length)
    ∧ (∃ engineFilter : FilterSpec, 2 ≤ engineFilter.length) := by
  refine ⟨?_, rfl, ?_, rfl, rfl, rfl, ?_, ?_⟩
  · by_cases hd : d = SortEnum.none <;> simp [handleSort, hd]
  · intro hd
    simp [handleSort, hd]
  · exact ⟨[(c, SortEnum.asc), (c2, SortEnum.desc)], by simp⟩
  · exact ⟨[(c, ⟨op, v⟩), (c2, ⟨op, v⟩)], by simp⟩

/-- Witness for C5: sorting the pos column ascending installs exactly that
single entry. -/
theorem ui_single_active_sort_filter_witness :
    SortEnum.asc ≠ SortEnum.none
    ∧ handleSort [("alt", SortEnum.desc)] "pos" SortEnum.asc = [("pos", SortEnum.asc)] :=
  ⟨by decide,
   (ui_single_active_sort_filter [("alt", SortEnum.desc)] [] "pos" "ref"
      SortEnum.asc FilterEnum.contains "x").2.2.1 (by decide)⟩

/-- Looking up a key after erasing it finds nothing. -/
theorem lookup_eraseKey (m : AggregationSpec) (c : String) :
    List.lookup c (eraseKey m c) = Option.none := by
  induction m with
  | nil => rfl
  | cons kv rest ih =>
      obtain ⟨k, e⟩ := kv
      by_cases hk : k = c
      · simp [eraseKey, List.filter_cons, hk] at ih ⊢
        simpa [eraseKey] using ih
      · have hk2 : (k != c) = true := by simpa using hk
        have hk3 : (c == k) = false := by simpa using Ne.symm hk
        simp [eraseKey, List.filter_cons, hk2, List.lookup, hk3]
        simpa [eraseKey] using ih

/-- Looking up a key after setting it finds the new entry. -/
theorem lookup_setKey (m : AggregationSpec) (c : String) (e : AggEntry) :
    List.lookup c (setKey m c e) = some e := by
  induction m with
  | nil => simp [setKey, List.lookup]
  | cons kv rest ih =>
      obtain ⟨k, old⟩ := kv
      by_cases hk : k = c
      · simp [setKey, hk, List.lookup]
      · have hk2 : (k == c) = false := by simpa using hk
        have hk3 : (c == k) = false := by simpa using Ne.symm hk
        simp [setKey, hk2, List.lookup, hk3, ih]

/-- C6: choosing the `none` aggregation action removes the entry client
side and issues no backend request; every other action issues exactly one
single-column aggregation request and, on success, stores the returned
value for that column. -/
theorem aggregation_none_client_side (aggs : AggregationSpec)
    (fileId column : String) (a : AggAction) (v : String) :
    handleAggregation aggs fileId column AggAction.none v true = ([], eraseKey aggs column)
    ∧ List.lookup column (eraseKey aggs column) = Option.none
    ∧ (a ≠ AggAction.none →
        (handleAggregation aggs fileId column a v true).1 = [Req.aggSingle fileId column a]
        ∧ (handleAggregation aggs fileId column a v true).1.length = 1
        ∧ List.lookup column (handleAggregation aggs fileId column a v true).2
            = some ⟨a, v⟩) := by
  refine ⟨rfl, lookup_eraseKey aggs column, ?_⟩
  intro ha
  cases a with
  | none => exact absurd rfl ha
  | sum => exact ⟨rfl, rfl, lookup_setKey aggs column ⟨AggAction.sum, v⟩⟩
  | avg => exact ⟨rfl, rfl, lookup_setKey aggs column ⟨AggAction.avg, v⟩⟩
  | min => exact ⟨rfl, rfl, lookup_setKey aggs column ⟨AggAction.min, v⟩⟩
  | max => exact ⟨rfl, rfl, lookup_setKey aggs column ⟨AggAction.max, v⟩⟩
  | cnt => exact ⟨rfl, rfl, lookup_setKey aggs column ⟨AggAction.cnt, v⟩⟩

/-- Witness for C6: a sum aggregation on column pos issues exactly the one
request. -/
theorem aggregation_none_client_side_witness :
    AggAction.sum ≠ AggAction.none
    ∧ (handleAggregation [("pos", ⟨AggAction.max, "9"⟩)] "f" "pos"
        AggAction.sum "42" true).1 = [Req.aggSingle "f" "pos" AggAction.sum] :=
  ⟨by decide,
   ((aggregation_none_client_side [("pos", ⟨AggAction.max, "9"⟩)] "f" "pos"
       AggAction.sum "42").2.2 (by decide)).1⟩

/-- C7: after a successful PUT, `handleSave` refetches the window and then
recomputes all active aggregations through a single `/aggregate/all`
request carrying the whole aggregations map — one `computeAll` request and
zero per-column aggregation requests. -/
theorem save_recomputes_aggregations_together (s : EditorState) (fileId : String) :
    handleSaveReqs s fileId true
      = [saveRequestOf s fileId,
         Req.getFile fileId s.pagination.page s.pagination.rowsPerPage s.sorts s.filters,
         Req.aggAll fileId s.aggregations]
    ∧ (handleSaveReqs s fileId true).countP isAggAll = 1
    ∧ (handleSaveReqs s fileId true).countP isAggSingle = 0 := by
  refine ⟨rfl, ?_, ?_⟩ <;>
    simp [handleSaveReqs, saveRequestOf, isAggAll, isAggSingle,
      List.countP_cons, List.countP_nil]

/-- The requests of a chain run are its issued requests. -/
theorem requestsOf_runChain (ok : Req → Bool) (l : List Req) :
    requestsOf (runChain ok l) = issued ok l := by
  induction l with
  | nil => rfl
  | cons r rs ih =>
      by_cases h : ok r = true
      · cases rs with
        | nil => simp [runChain, issued, requestsOf, h]
        | cons r2 rs2 =>
            simp only [runChain, issued, h, if_true]
            simpa [requestsOf] using ih
      · cases rs with
        | nil => simp [runChain, issued, requestsOf, h]
        | cons r2 rs2 => simp [runChain, issued, requestsOf, h]

/-- The issued requests form a prefix of the chain. -/
theorem issued_take (ok : Req → Bool) (l : List Req) :
    issued ok l = l.take (issued ok l).length := by
  induction l with
  | nil => rfl
  | cons r rs ih =>
      by_cases h : ok r = true
      · simp only [issued, h, if_true, List.length_cons, List.take_succ_cons]
        exact congrArg (r :: ·) ih
      · simp [issued, h]

/-- Every issued request except possibly the last one succeeded. -/
theorem issued_prefix_ok (ok : Req → Bool) (l : List Req) (d : Req) :
    ∀ i, i + 1 < (issued ok l).length → ok (l.getD i d) = true := by
  induction l with
  | nil => intro i hi; simp [issued] at hi
  | cons r rs ih =>
      intro i hi
      by_cases h : ok r = true
      · cases i with
        | zero => simpa using h
        | succ k =>
            simp only [issued, h, if_true, List.length_cons] at hi
            simpa using ih k (by omega)
      · simp [issued, h] at hi

/-- When the run stops short of the whole chain, the last issued request
failed. -/
theorem issued_stops_at_failure (ok : Req → Bool) (l : List Req) (d : Req) :
    (issued ok l).length < l.length →
    ok (l.getD ((issued ok l).length - 1) d) = false := by
  induction l with
  | nil => intro hlt; simp at hlt
  | cons r rs ih =>
      intro hlt
      by_cases h : ok r = true
      · simp only [issued, h, if_true, List.length_cons] at hlt ⊢
        have hlt2 : (issued ok rs).length < rs.length := by omega
        have h1 : 1 ≤ (issued ok rs).length := by
          cases rs with
          | nil => simp at hlt2
          | cons r2 rs2 => simp [issued]
        have := ih hlt2
        cases hL : (issued ok rs).length with
        | zero => omega
        | succ k =>
            simp only [hL] at this
            simpa [hL, List.getD_cons_succ] using this
      · simpa [issued, h] using h

/-- A nonempty chain issues at least one request. -/
theorem issued_nonempty (ok : Req → Bool) (r : Req) (rs : List Req) :
    1 ≤ (issued ok (r :: rs)).length := by
  simp [issued]

/-- With a csv final target, the Perform All handler is exactly the
sequential run of its seven-stage chain. -/
theorem handlePerformAllClick_eq_runChain (e : AutoEnv)
    (hext : getFileExtension (revelSavePath e) = "csv") :
    handlePerformAllClick e = runChain e.ok (autoChain e) := by
  rw [handlePerformAllClick, if_neg (by simp [hext])]
  simp only [autoChain, runChain, ite_self]

/-- A chain run alternates requests and 500 ms sleeps. -/
theorem altSpaced_runChain (ok : Req → Bool) (l : List Req) :
    altSpaced (runChain ok l) = true := by
  induction l with
  | nil => rfl
  | cons r rs ih =>
      by_cases h : ok r = true
      · cases rs with
        | nil => simp [runChain, altSpaced, h]
        | cons r2 rs2 => simpa [runChain, altSpaced, h] using ih
      · cases rs with
        | nil => simp [runChain, altSpaced, h]
        | cons r2 rs2 => simp [runChain, altSpaced, h]

/-- A nonempty chain run has one more request than sleeps. -/
theorem counts_runChain (ok : Req → Bool) (r : Req) (rs : List Req) :
    countSleeps (runChain ok (r :: rs)) + 1 = countReqs (runChain ok (r :: rs)) := by
  induction rs generalizing r with
  | nil =>
      by_cases h : ok r = true <;> simp [runChain, countSleeps, countReqs, h]
  | cons r2 rs2 ih =>
      by_cases h : ok r = true
      · have := ih r2
        simp only [countSleeps, countReqs] at this ⊢
        simp [runChain, h, List.countP_cons]
        omega
      · simp [runChain, countSleeps, countReqs, h]

/-- Every sleep in a chain run is 500 ms. -/
theorem allSleeps500_runChain (ok : Req → Bool) (l : List Req) :
    allSleeps500 (runChain ok l) = true := by
  induction l with
  | nil => rfl
  | cons r rs ih =>
      by_cases h : ok r = true
      · cases rs with
        | nil => simp [runChain, allSleeps500, h]
        | cons r2 rs2 => simpa [runChain, allSleeps500, h] using ih
      · cases rs with
        | nil => simp [runChain, allSleeps500, h]
        | cons r2 rs2 => simp [runChain, allSleeps500, h]

/-- C2 counterexample: it is not the case that every later pipeline stage
consumes the output file path of the previous stage as its input — the ClinVar
download (stage 2) reads no file at all, so it does not consume the LOVD
download output. -/
theorem performAll_chain_not_linear_dataflow :
    ¬ (∀ i, i + 1 < (autoChain autoEnvOk).length →
        outputOf ((autoChain autoEnvOk).getD i (lovdReq autoEnvOk))
          ∈ fileInputsOf ((autoChain autoEnvOk).getD (i + 1) (lovdReq autoEnvOk))) := by
  intro hall
  have h0 := hall 0 (by decide)
  exact absurd h0 (by decide)

/-- C2 (amended): the Perform All pipeline runs its seven stages strictly
sequentially in the fixed order download LOVD, download ClinVar, download
gnomAD, merge all, apply SpliceAI, apply CADD, apply REVEL; the issued
requests are always a prefix of that chain, a later stage starts only after
every earlier stage request succeeded, and the run stops at the first
failing stage; the merge stage consumes the three download output paths and
each apply stage consumes the immediately preceding stage output path. -/
theorem performAll_sequential_pipeline (e : AutoEnv)
    (hext : getFileExtension (revelSavePath e) = "csv") :
    requestsOf (handlePerformAllClick e)
      = (autoChain e).take (requestsOf (handlePerformAllClick e)).length
    ∧ 1 ≤ (requestsOf (handlePerformAllClick e)).length
    ∧ (∀ i, i + 1 < (requestsOf (handlePerformAllClick e)).length →
        e.ok ((autoChain e).getD i (lovdReq e)) = true)
    ∧ ((requestsOf (handlePerformAllClick e)).length < 7 →
        e.ok ((autoChain e).getD
          ((requestsOf (handlePerformAllClick e)).length - 1) (lovdReq e)) = false)
    ∧ autoChain e = [lovdReq e, clinvarReq e, gnomadReq e, mergeReq e,
        spliceaiReq e, caddReq e, revelReq e]
    ∧ fileInputsOf (mergeReq e)
        = [outputOf (lovdReq e), outputOf (clinvarReq e), outputOf (gnomadReq e)]
    ∧ fileInputsOf (spliceaiReq e) = [outputOf (mergeReq e)]
    ∧ fileInputsOf (caddReq e) = [outputOf (spliceaiReq e)]
    ∧ fileInputsOf (revelReq e) = [outputOf (caddReq e)] := by
  have hrun := handlePerformAllClick_eq_runChain e hext
  have hreq : requestsOf (handlePerformAllClick e) = issued e.ok (autoChain e) := by
    rw [hrun, requestsOf_runChain]
  refine ⟨?_, ?_, ?_, ?_, rfl, rfl, rfl, rfl, rfl⟩
  · rw [hreq]
    exact issued_take e.ok (autoChain e)
  · rw [hreq]
    exact issued_nonempty e.ok (lovdReq e) _
  · rw [hreq]
    exact issued_prefix_ok e.ok (autoChain e) (lovdReq e)
  · rw [hreq]
    intro hlt
    exact issued_stops_at_failure e.ok (autoChain e) (lovdReq e) hlt

/-- Witness for C2 (amended) at an all-success environment: the full chain
of seven requests is issued in order. -/
theorem performAll_sequential_pipeline_witness :
    getFileExtension (revelSavePath autoEnvOk) = "csv"
    ∧ requestsOf (handlePerformAllClick autoEnvOk)
        = (autoChain autoEnvOk).take
            (requestsOf (handlePerformAllClick autoEnvOk)).length :=
  ⟨by decide, (performAll_sequential_pipeline autoEnvOk (by decide)).1⟩

/-- C3: between every pair of consecutive pipeline stages the orchestration
waits a hardcoded 500 ms sleep rather than an explicit completion signal:
the trace strictly alternates stage requests with 500 ms sleeps, there is
exactly one sleep fewer than requests, and every sleep waits 500 ms. -/
theorem performAll_fixed_delay_between_stages (e : AutoEnv)
    (hext : getFileExtension (revelSavePath e) = "csv") :
    altSpaced (handlePerformAllClick e) = true
    ∧ countSleeps (handlePerformAllClick e) + 1 = countReqs (handlePerformAllClick e)
    ∧ allSleeps500 (handlePerformAllClick e) = true := by
  have hrun := handlePerformAllClick_eq_runChain e hext
  rw [hrun]
  exact ⟨altSpaced_runChain e.ok (autoChain e),
    counts_runChain e.ok (lovdReq e) _,
    allSleeps500_runChain e.ok (autoChain e)⟩

/-- Witness for C3 at an all-success environment. -/
theorem performAll_fixed_delay_between_stages_witness :
    getFileExtension (revelSavePath autoEnvOk) = "csv"
    ∧ altSpaced (handlePerformAllClick autoEnvOk) = true :=
  ⟨by decide, (performAll_fixed_delay_between_stages autoEnvOk (by decide)).1⟩

/-- C8: a merge or automated-pipeline run whose save target does not have
the csv extension is rejected: the caller reports the `Select .csv`
extension error and issues no request at all; in the automated pipeline the
final-target check fires before any stage is started. -/
theorem invalid_extension_rejected (me : MergeEnv) (ae : AutoEnv)
    (la cl gn : String)
    (hl : me.lovdFile = some la) (hc : me.clinvarFile = some cl)
    (hg : me.gnomadFile = some gn)
    (hA : getFileExtension (mergeAllSavePath me) ≠ "csv")
    (hG : getFileExtension (mergeLovdGnomadSavePath me) ≠ "csv")
    (hC : getFileExtension (mergeLovdClinvarSavePath me) ≠ "csv")
    (hP : getFileExtension (revelSavePath ae) ≠ "csv") :
    mergeAllClick me = [Ev.errorMsg "Select .csv"]
    ∧ mergeLovdAndGnomadClick me = [Ev.errorMsg "Select .csv"]
    ∧ mergeLovdAndClinvarClick me = [Ev.errorMsg "Select .csv"]
    ∧ requestsOf (mergeAllClick me) = []
    ∧ requestsOf (mergeLovdAndGnomadClick me) = []
    ∧ requestsOf (mergeLovdAndClinvarClick me) = []
    ∧ handlePerformAllClick ae = [Ev.errorMsg "Select .csv"]
    ∧ requestsOf (handlePerformAllClick ae) = [] := by
  have h1 : mergeAllClick me = [Ev.errorMsg "Select .csv"] := by
    simp [mergeAllClick, hl, hc, hg, hA]
  have h2 : mergeLovdAndGnomadClick me = [Ev.errorMsg "Select .csv"] := by
    simp [mergeLovdAndGnomadClick, hl, hg, hG]
  have h3 : mergeLovdAndClinvarClick me = [Ev.errorMsg "Select .csv"] := by
    simp [mergeLovdAndClinvarClick, hl, hc, hC]
  have h4 : handlePerformAllClick ae = [Ev.errorMsg "Select .csv"] := by
    rw [handlePerformAllClick, if_pos hP]
  exact ⟨h1, h2, h3, by rw [h1]; rfl, by rw [h2]; rfl, by rw [h3]; rfl,
    h4, by rw [h4]; rfl⟩

/-- Witness for C8 at concrete environments with txt save targets. -/
theorem invalid_extension_rejected_witness :
    getFileExtension (mergeAllSavePath mergeEnvTxt) ≠ "csv"
    ∧ getFileExtension (revelSavePath autoEnvTxt) ≠ "csv"
    ∧ mergeAllClick mergeEnvTxt = [Ev.errorMsg "Select .csv"]
    ∧ handlePerformAllClick autoEnvTxt = [Ev.errorMsg "Select .csv"] :=
  ⟨by decide, by decide,
   (invalid_extension_rejected mergeEnvTxt autoEnvTxt "lovd.txt" "clinvar.csv"
      "gnomad.csv" rfl rfl rfl (by decide) (by decide) (by decide) (by decide)).1,
   (invalid_extension_rejected mergeEnvTxt autoEnvTxt "lovd.txt" "clinvar.csv"
      "gnomad.csv" rfl rfl rfl (by decide) (by decide) (by decide) (by decide)).2.2.2.2.2.2.1⟩

/-- A fetch does not change the query parameters it was issued under. -/
theorem currentParams_applyFetch (s : EditorState) (resp : FetchResponse) :
    currentParams (applyFetch s resp) = currentParams s := rfl

/-- A fetch records the parameters it was issued under on the grid. -/
theorem fetchedWith_applyFetch (s : EditorState) (resp : FetchResponse) :
    (applyFetch s resp).grid.fetchedWith = currentParams s := rfl

/-- Invariant of the editor: the displayed window was fetched under the
current query parameters (every parameter change refetches). -/
theorem reachable_fetchedWith (s : EditorState) (h : Reachable s) :
    s.grid.fetchedWith = currentParams s := by
  induction h with
  | init p resp => rfl
  | next s ev hs ih =>
      cases ev with
      | sortColumn c d resp => rfl
      | filterColumn c op v resp => rfl
      | filterClear resp => rfl
      | paginationChange m resp =>
          by_cases hu : s.unsaved = true
          · simpa [step, hu, currentParams] using ih
          · simp only [step, hu, if_false]
            rfl
      | confirmLeave resp =>
          cases hp : s.pendingModel with
          | none => simpa [step, hp, currentParams] using ih
          | some m =>
              simp only [step, hp]
              rfl
      | cancelLeave => simpa [step, currentParams] using ih
      | editCell i j v => simpa [step, currentParams] using ih
      | saveClick putOk resp respAggs =>
          by_cases hk : putOk = true
          · simp [step, hk, applyFetch, currentParams]
          · simpa [step, hk, currentParams] using ih
      | aggregate c a v respOk => simpa [step, currentParams] using ih

/-- C1: in every reachable editor state, the save request submits the
displayed window header and rows together with exactly the page,
rowsPerPage, sorts and filters under which that window was fetched. -/
theorem save_submits_fetched_window (s : EditorState) (fileId : String)
    (h : Reachable s) :
    saveRequestOf s fileId
      = Req.putSave fileId s.grid.fetchedWith.page s.grid.fetchedWith.rowsPerPage
          s.grid.header s.grid.rows s.grid.fetchedWith.sorts
          s.grid.fetchedWith.filters := by
  rw [reachable_fetchedWith s h]
  rfl

/-- Witness for C1 at a concrete reachable state (mount, then sort). -/
theorem save_submits_fetched_window_witness :
    Reachable c1State
    ∧ saveRequestOf c1State "file1"
        = Req.putSave "file1" c1State.grid.fetchedWith.page
            c1State.grid.fetchedWith.rowsPerPage c1State.grid.header
            c1State.grid.rows c1State.grid.fetchedWith.sorts
            c1State.grid.fetchedWith.filters :=
  ⟨Reachable.next _ _ (Reachable.init ⟨0, 25, 0⟩ ⟨3, ["pos"], [["10"], ["30"], ["20"]]⟩),
   save_submits_fetched_window c1State "file1"
     (Reachable.next _ _
       (Reachable.init ⟨0, 25, 0⟩ ⟨3, ["pos"], [["10"], ["30"], ["20"]]⟩))⟩

/-- C9: while there are unsaved edits a pagination change never takes
effect immediately — the requested model is parked behind the confirmation
dialog with page, rowsPerPage and totalRows untouched; confirming applies
the requested page and page size; cancelling discards the pending model and
leaves page, rowsPerPage and totalRows unchanged. -/
theorem unsaved_pagination_needs_confirmation (s : EditorState)
    (m : PaginationModel) (resp resp2 : FetchResponse)
    (hu : s.unsaved = true) :
    (step s (EditorEvent.paginationChange m resp)).pagination = s.pagination
    ∧ (step s (EditorEvent.paginationChange m resp)).pendingModel = some m
    ∧ (step s (EditorEvent.paginationChange m resp)).dialogOpen = true
    ∧ (step (step s (EditorEvent.paginationChange m resp))
        (EditorEvent.confirmLeave resp2)).pagination.page = m.page
    ∧ (step (step s (EditorEvent.paginationChange m resp))
        (EditorEvent.confirmLeave resp2)).pagination.rowsPerPage = m.pageSize
    ∧ (step (step s (EditorEvent.paginationChange m resp))
        (EditorEvent.confirmLeave resp2)).pendingModel = Option.none
    ∧ (step (step s (EditorEvent.paginationChange m resp))
        EditorEvent.cancelLeave).pagination = s.pagination
    ∧ (step (step s (EditorEvent.paginationChange m resp))
        EditorEvent.cancelLeave).pendingModel = Option.none
    ∧ (step (step s (EditorEvent.paginationChange m resp))
        EditorEvent.cancelLeave).dialogOpen = false := by
  simp [step, hu, applyFetch]

/-- Witness for C9 at a concrete unsaved state. -/
theorem unsaved_pagination_needs_confirmation_witness :
    c9State.unsaved = true
    ∧ (step c9State (EditorEvent.paginationChange ⟨2, 50⟩ ⟨100, [], []⟩)).pagination
        = c9State.pagination :=
  ⟨rfl,
   (unsaved_pagination_needs_confirmation c9State ⟨2, 50⟩ ⟨100, [], []⟩
      ⟨100, [], []⟩ rfl).1⟩

end Kath
